import Mathlib

/-
Verification development for the FlightPulse notification workflow engine.

The source encodes three AWS Step Functions workflows (Delay, Cancellation,
Gate-Change) in infrastructure/lib/flightpulse-stack.ts, plus two Node.js
lambdas (api-handlers, stream-handler).  This file gives a shallow embedding:

* the DynamoDB single-table data is modelled by `Store` (Flight / Booking /
  Passenger metadata rows, plus the denormalized FLIGHT#id / BOOKING#id
  lookup rows used by the GetAffectedBookings query);
* each DynamoDB update task becomes a single atomic function on `Store`,
  translating the task's UpdateExpression field by field;
* each state machine becomes an executable interpreter over a failure
  oracle (`FailOracle`, saying which store tasks fail), an opaque message
  generator (`Gen`, per the spec's contract the generator never raises),
  and an effect trace (`Eff`);
* Map states are interpreted serially in item order, aborting at the first
  failing item.  This is one admissible schedule of the Step Functions Map
  (maxConcurrency only bounds parallelism from above); the separate
  `MapRunStep` transition system models the concurrency bound itself.
* `Parallel` branches are serialized branch-1-then-branch-2; in the one
  Parallel whose branches are not independent (ProcessAndUpdate in the
  Delay workflow) branch 1 never reads the flight row written by branch 2,
  so the serialization is effect-equivalent to any interleaving.

DynamoDB attribute-value marshalling and Step Functions JSON-path result
plumbing are abstracted: query items surface their `booking_id` /
`passenger_id` attributes directly, as the workflow definitions intend.
-/

namespace FlightPulse

/-! ## Data model (single-table rows) -/

/-- Flight metadata row: PK = FLIGHT#flight_id, SK = METADATA.
`gsi1pk` is the GSI1PK attribute (status index key). -/
structure Flight where
  flight_id : String
  status : String
  gsi1pk : String
  gate : String
  delay_minutes : Int
  delay_reason : String
  deriving DecidableEq, Repr

/-- Booking metadata row: PK = BOOKING#booking_id, SK = METADATA.
`gsi2pk` is the GSI2PK attribute (booking-status index key). -/
structure Booking where
  booking_id : String
  flight_id : String
  passenger_id : String
  booking_status : String
  gsi2pk : String
  deriving DecidableEq, Repr

structure NotificationPreferences where
  email : Bool
  sms : Bool
  deriving DecidableEq, Repr

/-- Passenger metadata row: PK = PASSENGER#passenger_id, SK = METADATA. -/
structure Passenger where
  passenger_id : String
  email : String
  phone : String
  notification_preferences : NotificationPreferences
  deriving DecidableEq, Repr

/-- Denormalized booking-lookup row under the flight partition:
PK = FLIGHT#flight_id, SK = BOOKING#booking_id, carrying the foreign ids.
The GetAffectedBookings query (PK = FLIGHT#id AND begins_with(SK, BOOKING#))
returns exactly these rows. -/
structure BookingLookup where
  flight_id : String
  booking_id : String
  passenger_id : String
  deriving DecidableEq, Repr

structure Store where
  flights : List Flight
  bookings : List Booking
  passengers : List Passenger
  lookups : List BookingLookup
  deriving DecidableEq, Repr

/-! ## Store queries and updates (the workflow Task bodies) -/

/-- GetAffectedBookings: dynamodb query, KeyConditionExpression
PK = FLIGHT#flight_id AND begins_with(SK, BOOKING#). -/
def getAffectedBookings (fid : String) (s : Store) : List BookingLookup :=
  s.lookups.filter (fun lk => lk.flight_id == fid)

/-- GetPassengerDetails: DynamoGetItem on PK = PASSENGER#passenger_id,
SK = METADATA.  A missing key yields no Item (DynamoDB GetItem does not
error on absence). -/
def getPassengerDetails (s : Store) (pid : String) : Option Passenger :=
  s.passengers.find? (fun p => p.passenger_id == pid)

/-- UpdateFlightStatus (Delay workflow), applied to one row:
SET #status = :status, delay_minutes = :delay, delay_reason = :reason,
GSI1PK = :gsi1pk with :status = DELAYED, :gsi1pk = DELAYED. -/
def setFlightDelayed (fid : String) (delay : Int) (reason : String)
    (f : Flight) : Flight :=
  if f.flight_id == fid then
    { f with status := "DELAYED", delay_minutes := delay,
             delay_reason := reason, gsi1pk := "DELAYED" }
  else f

def updateFlightStatusDelay (fid : String) (delay : Int) (reason : String)
    (s : Store) : Store :=
  { s with flights := s.flights.map (setFlightDelayed fid delay reason) }

/-- UpdateFlightStatus (Cancellation workflow), applied to one row:
SET #status = :status, GSI1PK = :gsi1pk with both values CANCELLED. -/
def setFlightCancelled (fid : String) (f : Flight) : Flight :=
  if f.flight_id == fid then
    { f with status := "CANCELLED", gsi1pk := "CANCELLED" }
  else f

def updateFlightStatusCancelled (fid : String) (s : Store) : Store :=
  { s with flights := s.flights.map (setFlightCancelled fid) }

/-- UpdateFlightGate (Gate-Change workflow): SET gate = :gate. -/
def setFlightGate (fid gate : String) (f : Flight) : Flight :=
  if f.flight_id == fid then { f with gate := gate } else f

def updateFlightGate (fid gate : String) (s : Store) : Store :=
  { s with flights := s.flights.map (setFlightGate fid gate) }

/-- UpdateBookingStatus (MarkBookingsForRebooking iterator):
SET booking_status = :status, GSI2PK = :gsi2pk, both NEEDS_REBOOKING. -/
def setBookingNeedsRebooking (bid : String) (b : Booking) : Booking :=
  if b.booking_id == bid then
    { b with booking_status := "NEEDS_REBOOKING", gsi2pk := "NEEDS_REBOOKING" }
  else b

def updateBookingStatus (bid : String) (s : Store) : Store :=
  { s with bookings := s.bookings.map (setBookingNeedsRebooking bid) }

/-! ## Effects, failure oracle, generator -/

/-- Observable effects of one workflow execution, in occurrence order. -/
inductive Eff where
  /-- EventBridgePutEvents with detailType notification.email; first
  argument is the detail's to field. -/
  | publishedEmail (toAddr subject body : String)
  /-- EventBridgePutEvents with detailType notification.sms; first
  argument is the detail's to field. -/
  | publishedSms (toAddr message : String)
  /-- LambdaInvoke of the LLM messenger (GeneratePersonalizedMessage). -/
  | generatedMessage (passenger_id message_type : String)
  /-- SnsPublish to the workflow error topic (NotifyDelayFailure):
  message fields are workflow / error / cause / entire input payload. -/
  | failureReport (workflow error cause : String)
  | updatedBooking (booking_id : String)
  | updatedFlightStatus (flight_id : String)
  | updatedFlightGate (flight_id : String)
  deriving DecidableEq, Repr

def isFailureReport : Eff → Bool
  | .failureReport _ _ _ => true
  | _ => false

/-- Effects produced inside the ProcessBookings item sub-workflow
(message generation and the two conditional publishes). -/
def isNotifEff : Eff → Bool
  | .generatedMessage _ _ => true
  | .publishedEmail _ _ _ => true
  | .publishedSms _ _ => true
  | _ => false

def isBookingUpdateEff : Eff → Bool
  | .updatedBooking _ => true
  | _ => false

/-- Which store tasks fail (e.g. DynamoDB unavailable) in one execution.
Passenger-lookup failures are modelled separately, through absence of the
passenger row in the store. -/
structure FailOracle where
  failGetBookings : Bool
  failUpdateFlight : Bool
  failUpdateGate : Bool
  failUpdateBooking : String → Bool

def noFailures : FailOracle :=
  { failGetBookings := false, failUpdateFlight := false,
    failUpdateGate := false, failUpdateBooking := fun _ => false }

/-- Result contract of the message generator (llm-messenger lambda):
per the spec it never raises, internal failures resolve to a fallback. -/
structure MessageResult where
  email_subject : String
  email_body : String
  sms_body : String
  deriving DecidableEq, Repr

/-- The opaque generator: passenger and message type to notification copy. -/
def Gen : Type := Passenger → String → MessageResult

/-! ## ProcessBookings Map (shared sub-workflow) -/

/-- Effects of one booking item once its passenger row was fetched:
GeneratePersonalizedMessage, then the SendNotifications Parallel whose
branches publish conditionally on the passenger's preference booleans. -/
def passengerMsgEffs (gen : Gen) (msgType : String) (p : Passenger) :
    List Eff :=
  let m := gen p msgType
  Eff.generatedMessage p.passenger_id msgType ::
    ((if p.notification_preferences.email then
        [Eff.publishedEmail p.email m.email_subject m.email_body]
      else []) ++
     (if p.notification_preferences.sms then
        [Eff.publishedSms p.phone m.sms_body]
      else []))

/-- One iteration of ProcessBookingsInParallel.  When GetPassengerDetails
returns no Item, the next state's input path $.Item does not resolve and
the iteration fails (uncaught: the iterator attaches no catch). -/
def runBookingItem (gen : Gen) (msgType : String) (s : Store)
    (it : BookingLookup) : Except (String × String) (List Eff) :=
  match getPassengerDetails s it.passenger_id with
  | none =>
      Except.error ("States.Runtime",
        "GetPassengerDetails found no item for " ++ it.passenger_id)
  | some p => Except.ok (passengerMsgEffs gen msgType p)

/-- ProcessBookingsInParallel over the query items, serial item order,
aborting at the first failing iteration (an admissible Map schedule; an
iteration failure fails the whole Map state since no catch is attached
inside the iterator). -/
def runProcessBookings (gen : Gen) (msgType : String)
    (items : List BookingLookup) (s : Store) :
    List Eff × Option (String × String) :=
  match items with
  | [] => ([], none)
  | it :: rest =>
      match runBookingItem gen msgType s it with
      | .error e => ([], some e)
      | .ok effs =>
          let r := runProcessBookings gen msgType rest s
          (effs ++ r.1, r.2)

/-! ## MarkBookingsForRebooking Map (Cancellation workflow) -/

def runMarkForRebooking (o : FailOracle) (items : List BookingLookup)
    (s : Store) : Store × List Eff × Option (String × String) :=
  match items with
  | [] => (s, [], none)
  | it :: rest =>
      if o.failUpdateBooking it.booking_id then
        (s, [], some ("DynamoDB.Error", "UpdateBookingStatus failed"))
      else
        let s1 := updateBookingStatus it.booking_id s
        let r := runMarkForRebooking o rest s1
        (r.1, Eff.updatedBooking it.booking_id :: r.2.1, r.2.2)

/-! ## The three state machines -/

inductive Outcome where
  | succeeded
  | failed (error cause : String)
  deriving DecidableEq, Repr

structure RunResult where
  store : Store
  trace : List Eff
  outcome : Outcome
  deriving DecidableEq, Repr

/-- Trigger detail of the flight.delay.* events. -/
structure DelayDetail where
  flight_id : String
  delay_minutes : Int
  reason : String
  deriving DecidableEq, Repr

structure CancelDetail where
  flight_id : String
  deriving DecidableEq, Repr

structure GateChangeDetail where
  flight_id : String
  new_gate : String
  deriving DecidableEq, Repr

/-- NotifyDelayFailure effect: catch handlers of the Delay workflow route
here; the state publishes to the error topic and is an End state, so the
execution terminates without further states (with a SUCCEEDED status). -/
def delayReport (e c : String) : Eff :=
  Eff.failureReport "DelayNotification" e c

/-- DelayNotificationWorkflow:
GetAffectedBookings (catch to NotifyDelayFailure) -> ProcessAndUpdate
Parallel (catch to NotifyDelayFailure) of
[CheckBookingsExist Choice -> ProcessBookingsInParallel | NoBookingsFound]
and [UpdateFlightStatus (catch to NotifyDelayFailure)] -> Succeed.
Branches serialized 1-then-2; branch 1 never reads the flight row branch 2
writes, so this serialization is effect-equivalent to any interleaving. -/
def runDelay (o : FailOracle) (gen : Gen) (d : DelayDetail) (s : Store) :
    RunResult :=
  if o.failGetBookings then
    ⟨s, [delayReport "DynamoDB.Error" "GetAffectedBookings failed"],
     .succeeded⟩
  else
    let items := getAffectedBookings d.flight_id s
    let branchA : List Eff × Option (String × String) :=
      if items.length > 0 then
        runProcessBookings gen "DELAY_NOTIFICATION" items s
      else ([], none)
    let branchB : Store × List Eff :=
      if o.failUpdateFlight then
        (s, [delayReport "DynamoDB.Error" "UpdateFlightStatus failed"])
      else
        (updateFlightStatusDelay d.flight_id d.delay_minutes d.reason s,
         [Eff.updatedFlightStatus d.flight_id])
    match branchA.2 with
    | some (e, c) =>
        ⟨branchB.1, branchA.1 ++ branchB.2 ++ [delayReport e c], .succeeded⟩
    | none => ⟨branchB.1, branchA.1 ++ branchB.2, .succeeded⟩

/-- CancellationWorkflow:
GetAffectedBookings -> MarkBookingsForRebooking ->
ProcessBookingsInParallel -> UpdateFlightStatus -> Succeed.
No state attaches a catch handler: any failure terminates the execution
as FAILED with no publish to the error topic. -/
def runCancellation (o : FailOracle) (gen : Gen) (d : CancelDetail)
    (s : Store) : RunResult :=
  if o.failGetBookings then
    ⟨s, [], .failed "DynamoDB.Error" "GetAffectedBookings failed"⟩
  else
    let items := getAffectedBookings d.flight_id s
    let mark := runMarkForRebooking o items s
    match mark.2.2 with
    | some (e, c) => ⟨mark.1, mark.2.1, .failed e c⟩
    | none =>
        let proc :=
          runProcessBookings gen "CANCELLATION_NOTIFICATION" items mark.1
        match proc.2 with
        | some (e, c) => ⟨mark.1, mark.2.1 ++ proc.1, .failed e c⟩
        | none =>
            if o.failUpdateFlight then
              ⟨mark.1, mark.2.1 ++ proc.1,
               .failed "DynamoDB.Error" "UpdateFlightStatus failed"⟩
            else
              ⟨updateFlightStatusCancelled d.flight_id mark.1,
               mark.2.1 ++ proc.1 ++ [Eff.updatedFlightStatus d.flight_id],
               .succeeded⟩

/-- GateChangeWorkflow:
UpdateFlightGate -> GetAffectedBookings -> ProcessBookingsInParallel ->
Succeed.  No state attaches a catch handler. -/
def runGateChange (o : FailOracle) (gen : Gen) (d : GateChangeDetail)
    (s : Store) : RunResult :=
  if o.failUpdateGate then
    ⟨s, [], .failed "DynamoDB.Error" "UpdateFlightGate failed"⟩
  else
    let s1 := updateFlightGate d.flight_id d.new_gate s
    if o.failGetBookings then
      ⟨s1, [Eff.updatedFlightGate d.flight_id],
       .failed "DynamoDB.Error" "GetAffectedBookings failed"⟩
    else
      let items := getAffectedBookings d.flight_id s1
      let proc := runProcessBookings gen "GATE_CHANGE_NOTIFICATION" items s1
      match proc.2 with
      | some (e, c) =>
          ⟨s1, Eff.updatedFlightGate d.flight_id :: proc.1, .failed e c⟩
      | none =>
          ⟨s1, Eff.updatedFlightGate d.flight_id :: proc.1, .succeeded⟩

/-! ## EventBridge routing rules (trigger detail-type to state machine) -/

inductive Workflow where
  | delay
  | cancellation
  | gateChange
  deriving DecidableEq, Repr

/-- The five events.Rule declarations of the stack, in source order:
each matches source flightpulse.kafka-consumer and one detailType, and
targets one state machine. -/
def eventRules : List (String × Workflow) :=
  [("flight.delay.minor", Workflow.delay),
   ("flight.delay.major", Workflow.delay),
   ("flight.delay.severe", Workflow.delay),
   ("flight.cancelled", Workflow.cancellation),
   ("flight.gate_change", Workflow.gateChange)]

/-- Workflows whose rule matches a given trigger detail-type. -/
def matchingWorkflows (dt : String) : List Workflow :=
  (eventRules.filter (fun r => r.1 == dt)).map Prod.snd

/-! ## Map concurrency configuration and bound -/

/-- Configuration extracted from a sfn.Map construct. -/
structure MapStepConfig where
  name : String
  maxConcurrency : Nat
  deriving DecidableEq, Repr

/-- ProcessBookingsInParallel (built by createProcessBookingsMap and used
in all three workflows): maxConcurrency 10. -/
def processBookingsMapConfig : MapStepConfig :=
  { name := "ProcessBookingsInParallel", maxConcurrency := 10 }

/-- MarkBookingsForRebooking (Cancellation workflow): maxConcurrency 10. -/
def markBookingsForRebookingConfig : MapStepConfig :=
  { name := "MarkBookingsForRebooking", maxConcurrency := 10 }

/-- Every Map state appearing in the three workflow definitions. -/
def workflowMapConfigs : List MapStepConfig :=
  [processBookingsMapConfig, markBookingsForRebookingConfig]

/-- Scheduler state of one running Map: how many items are queued, how
many are mid-flight, how many finished. -/
structure MapRunState where
  pending : Nat
  inFlight : Nat
  done : Nat
  deriving DecidableEq, Repr

/-- Scheduling transitions of a Map with concurrency limit `limit`: an
item may start only while fewer than `limit` items are mid-flight, and a
mid-flight item may finish. -/
inductive MapRunStep (limit : Nat) : MapRunState → MapRunState → Prop
  | start (p f d : Nat) : f < limit →
      MapRunStep limit ⟨p + 1, f, d⟩ ⟨p, f + 1, d⟩
  | finish (p f d : Nat) :
      MapRunStep limit ⟨p, f + 1, d⟩ ⟨p, f, d + 1⟩

/-! ## api-handlers lambda: the GET passengers-by-id route -/

/-- An item as the DynamoDB document client returns it: attribute names
with string values, in attribute order. -/
abbrev Item : Type := List (String × String)

/-- Attribute keys that survive the destructuring
const (email, phone, ...safeData) = result.Item. -/
def isSafeAttr (kv : String × String) : Bool :=
  !(kv.1 == "email") && !(kv.1 == "phone")

/-- HTTP response: status code and body key-value pairs (the handler
serializes the body with JSON.stringify). -/
structure ApiResponse where
  statusCode : Nat
  body : List (String × String)
  deriving DecidableEq, Repr

/-- The GET /passengers/(passengerId) route of the api-handlers lambda:
404 when the row is absent, otherwise 200 with every attribute except
email and phone. -/
def passengerGetResponse (item : Option Item) : ApiResponse :=
  match item with
  | none => { statusCode := 404, body := [("error", "Passenger not found")] }
  | some it => { statusCode := 200, body := it.filter isSafeAttr }

/-! ## stream-handler lambda -/

/-- String begins-with test on the character list (the semantics of the
JavaScript pk.startsWith call; the built-in String.startsWith is
iterator-based and does not reduce well). -/
def strStartsWith (s pre : String) : Bool :=
  pre.data.isPrefixOf s.data

/-- Drop the first n characters (used for the JavaScript replace of the
leading BOOKING# occurrence). -/
def strDropChars (s : String) (n : Nat) : String :=
  String.mk (s.data.drop n)

inductive StreamEventName where
  | INSERT
  | MODIFY
  | REMOVE
  deriving DecidableEq, Repr

/-- The attributes of a stream image the handler reads; each field is the
.S string value of the attribute when present. -/
structure StreamImage where
  PK : Option String
  SK : Option String
  booking_status : Option String
  deriving DecidableEq, Repr

structure StreamRecord where
  eventName : StreamEventName
  newImage : Option StreamImage
  oldImage : Option StreamImage
  deriving DecidableEq, Repr

/-- The handler's per-record publish decision:
eventName MODIFY or INSERT, a new image, PK starting with BOOKING#,
SK equal to METADATA, and a truthy new booking_status (a JavaScript
string is truthy exactly when non-empty) different from the old one. -/
def shouldPublish (r : StreamRecord) : Bool :=
  (r.eventName == .MODIFY || r.eventName == .INSERT) &&
  match r.newImage with
  | none => false
  | some ni =>
      let pk := ni.PK.getD ""
      let sk := ni.SK.getD ""
      strStartsWith pk "BOOKING#" && sk == "METADATA" &&
      match ni.booking_status with
      | none => false
      | some ns =>
          !(ns == "") && !(some ns == r.oldImage.bind StreamImage.booking_status)

/-- Detail of the booking.status_changed event the handler publishes. -/
structure BookingEvent where
  booking_id : String
  old_status : Option String
  new_status : Option String
  deriving DecidableEq, Repr

/-- The published detail for a record that passed shouldPublish: the
booking id strips the leading BOOKING# (the guard ensures the prefix, so
the JavaScript replace of its first occurrence drops 8 characters). -/
def recordEvent (r : StreamRecord) : BookingEvent :=
  let ni := r.newImage.getD ⟨none, none, none⟩
  { booking_id := strDropChars (ni.PK.getD "") 8
  , old_status := r.oldImage.bind StreamImage.booking_status
  , new_status := ni.booking_status }

/-- One loop iteration body: the publish attempt for record index i,
which the EventBridge client may fail (sendFails). -/
def sendRecord (sendFails : Nat → Bool) (i : Nat) (r : StreamRecord) :
    Except String (List BookingEvent) :=
  if shouldPublish r then
    if sendFails i then Except.error "PutEvents failed"
    else Except.ok [recordEvent r]
  else Except.ok []

/-- The stream handler's record loop: each record body runs inside
try/catch, an error is logged and the loop continues with the next
record. Returns the successfully published events in order. -/
def processRecords (sendFails : Nat → Bool) :
    List StreamRecord → Nat → List BookingEvent
  | [], _ => []
  | r :: rest, i =>
      match sendRecord sendFails i r with
      | .ok evs => evs ++ processRecords sendFails rest (i + 1)
      | .error _ => processRecords sendFails rest (i + 1)

/-! ## Invariants and claim-side predicates -/

/-- Spec invariant on the store: a Flight's status and its GSI1PK index
key agree, and a Booking's booking_status and its GSI2PK index key agree. -/
def statusIndexSynced (s : Store) : Prop :=
  (∀ f ∈ s.flights, f.gsi1pk = f.status) ∧
  (∀ b ∈ s.bookings, b.gsi2pk = b.booking_status)

/-- Every booking row carrying this booking id is marked NEEDS_REBOOKING,
index key included. -/
def bookingMarked (bid : String) (s : Store) : Prop :=
  ∀ b ∈ s.bookings, b.booking_id = bid →
    b.booking_status = "NEEDS_REBOOKING" ∧ b.gsi2pk = "NEEDS_REBOOKING"

/-- The passenger row a booking-lookup item points to exists. -/
def passengerFound (s : Store) (it : BookingLookup) : Bool :=
  (getPassengerDetails s it.passenger_id).isSome

/-- Publish condition of claim C10 as the claim words it: an INSERT or
MODIFY whose new image has PK beginning with BOOKING# and SK METADATA,
and whose new booking_status is present and differs from the old one. -/
def claimPublishCondition (r : StreamRecord) : Prop :=
  (r.eventName = .INSERT ∨ r.eventName = .MODIFY) ∧
  ∃ ni, r.newImage = some ni ∧
    strStartsWith (ni.PK.getD "") "BOOKING#" = true ∧
    ni.SK = some "METADATA" ∧
    ni.booking_status.isSome = true ∧
    ni.booking_status ≠ r.oldImage.bind StreamImage.booking_status

/-- Publish condition the code implements: as claimPublishCondition but
the new booking_status must additionally be non-empty (JavaScript
truthiness of the status string). -/
def codePublishCondition (r : StreamRecord) : Prop :=
  (r.eventName = .INSERT ∨ r.eventName = .MODIFY) ∧
  ∃ ni ns, r.newImage = some ni ∧
    strStartsWith (ni.PK.getD "") "BOOKING#" = true ∧
    ni.SK = some "METADATA" ∧
    ni.booking_status = some ns ∧ ns ≠ "" ∧
    some ns ≠ r.oldImage.bind StreamImage.booking_status

/-! ## Concrete sample data -/

/-- A concrete generator instance (the generator is opaque to the
engine; theorems about generator-independent facts quantify over Gen). -/
def genConst : Gen := fun _ _ =>
  { email_subject := "subject", email_body := "body", sms_body := "sms-text" }

def paxP1 : Passenger :=
  { passenger_id := "P1", email := "p1@example.com", phone := "555-0101",
    notification_preferences := { email := true, sms := false } }

def paxP2 : Passenger :=
  { passenger_id := "P2", email := "p2@example.com", phone := "555-0102",
    notification_preferences := { email := true, sms := true } }

def flightF1 : Flight :=
  { flight_id := "F1", status := "SCHEDULED", gsi1pk := "SCHEDULED",
    gate := "A1", delay_minutes := 0, delay_reason := "" }

/-- A store where both passengers of flight F1 exist. -/
def storeOk : Store :=
  { flights := [flightF1],
    bookings :=
      [{ booking_id := "B1", flight_id := "F1", passenger_id := "P1",
         booking_status := "CONFIRMED", gsi2pk := "CONFIRMED" },
       { booking_id := "B2", flight_id := "F1", passenger_id := "P2",
         booking_status := "CONFIRMED", gsi2pk := "CONFIRMED" }],
    passengers := [paxP1, paxP2],
    lookups :=
      [{ flight_id := "F1", booking_id := "B1", passenger_id := "P1" },
       { flight_id := "F1", booking_id := "B2", passenger_id := "P2" }] }

/-- Like storeOk but the P1 passenger row is missing, so the first
booking item's GetPassengerDetails finds no record. -/
def storeMissingP1 : Store := { storeOk with passengers := [paxP2] }

/-- A store where flight F1 has three booking items in query order B1,
B3, B2, and only B3's passenger row (P3) is missing. -/
def storeMidFail : Store :=
  { flights := [flightF1],
    bookings :=
      [{ booking_id := "B1", flight_id := "F1", passenger_id := "P1",
         booking_status := "CONFIRMED", gsi2pk := "CONFIRMED" },
       { booking_id := "B3", flight_id := "F1", passenger_id := "P3",
         booking_status := "CONFIRMED", gsi2pk := "CONFIRMED" },
       { booking_id := "B2", flight_id := "F1", passenger_id := "P2",
         booking_status := "CONFIRMED", gsi2pk := "CONFIRMED" }],
    passengers := [paxP1, paxP2],
    lookups :=
      [{ flight_id := "F1", booking_id := "B1", passenger_id := "P1" },
       { flight_id := "F1", booking_id := "B3", passenger_id := "P3" },
       { flight_id := "F1", booking_id := "B2", passenger_id := "P2" }] }

def failBookingsOracle : FailOracle :=
  { noFailures with failGetBookings := true }

def failGateOracle : FailOracle :=
  { noFailures with failUpdateGate := true }

/-- A Booking MODIFY stream record whose new booking_status is present
but empty, and differs from the old status. -/
def emptyStatusRecord : StreamRecord :=
  { eventName := .MODIFY,
    newImage := some
      { PK := some "BOOKING#B1", SK := some "METADATA",
        booking_status := some "" },
    oldImage := some
      { PK := some "BOOKING#B1", SK := some "METADATA",
        booking_status := some "CONFIRMED" } }

/-! ## Helper lemmas -/

theorem filter_key_le_one (l : List (String × Workflow)) (dt : String)
    (h : (l.map Prod.fst).Nodup) :
    (l.filter (fun r => r.1 == dt)).length ≤ 1 := by
  induction l with
  | nil => simp
  | cons a t ih =>
      rw [List.map_cons, List.nodup_cons] at h
      obtain ⟨hna, hnd⟩ := h
      rw [List.filter_cons]
      by_cases had : (a.1 == dt) = true
      · have hdt : a.1 = dt := by simpa using had
        have hnil : t.filter (fun r => r.1 == dt) = [] := by
          refine List.filter_eq_nil_iff.mpr ?_
          intro r hr hcon
          exact hna (List.mem_map.mpr ⟨r, hr, by
            have : r.1 = dt := by simpa using hcon
            simp [this, hdt]⟩)
        simp [had, hnil]
      · simp only [had, if_false]
        exact ih hnd

/-! ## Claim theorems -/

/-- Claim C5: each of the five valid trigger detail-types is routed by
exactly one EventBridge rule, to the expected state machine, and no
detail-type matches more than one workflow. -/
theorem c5_unique_workflow_routing :
    matchingWorkflows "flight.delay.minor" = [Workflow.delay] ∧
    matchingWorkflows "flight.delay.major" = [Workflow.delay] ∧
    matchingWorkflows "flight.delay.severe" = [Workflow.delay] ∧
    matchingWorkflows "flight.cancelled" = [Workflow.cancellation] ∧
    matchingWorkflows "flight.gate_change" = [Workflow.gateChange] ∧
    ∀ dt : String, (matchingWorkflows dt).length ≤ 1 := by
  refine ⟨by decide, by decide, by decide, by decide, by decide, ?_⟩
  intro dt
  have h : ((eventRules.filter (fun r => r.1 == dt)).length ≤ 1) :=
    filter_key_le_one eventRules dt (by decide)
  simpa [matchingWorkflows] using h

/-- Claim C9: the GET passengers-by-id response never carries an email or
phone attribute, and two passenger rows agreeing outside email and phone
produce identical responses. -/
theorem c9_passenger_response_excludes_contact :
    (∀ (it : Item) (k v : String),
        (k, v) ∈ (passengerGetResponse (some it)).body →
        k ≠ "email" ∧ k ≠ "phone") ∧
    (∀ it1 it2 : Item, it1.filter isSafeAttr = it2.filter isSafeAttr →
        passengerGetResponse (some it1) = passengerGetResponse (some it2)) := by
  constructor
  · intro it k v hm
    simp only [passengerGetResponse] at hm
    have hs : isSafeAttr (k, v) = true := List.of_mem_filter hm
    constructor
    · intro hk; subst hk; simp [isSafeAttr] at hs
    · intro hk; subst hk; simp [isSafeAttr] at hs
  · intro it1 it2 h
    simp [passengerGetResponse, h]

/-- Witness for c9_passenger_response_excludes_contact at a concrete
passenger item. -/
theorem c9_passenger_response_excludes_contact_witness :
    ("name" ≠ "email" ∧ "name" ≠ "phone") ∧
    passengerGetResponse (some [("name", "Jo"), ("email", "jo@x.org")]) =
      passengerGetResponse (some [("name", "Jo"), ("phone", "555")]) :=
  ⟨c9_passenger_response_excludes_contact.1
      [("name", "Jo")] "name" "Jo" (by decide),
   c9_passenger_response_excludes_contact.2
      [("name", "Jo"), ("email", "jo@x.org")]
      [("name", "Jo"), ("phone", "555")] (by decide)⟩

/-- Claim C10 counterexample: a MODIFY record of a BOOKING# METADATA row
whose new booking_status is present (the empty string) and differs from
the old status satisfies the claim's publish condition, yet the handler
does not publish (the empty string is falsy in JavaScript). -/
theorem c10_claim_counterexample :
    claimPublishCondition emptyStatusRecord ∧
    shouldPublish emptyStatusRecord = false := by
  constructor
  · exact ⟨Or.inr rfl,
      ⟨{ PK := some "BOOKING#B1", SK := some "METADATA",
         booking_status := some "" },
       rfl, by decide, rfl, rfl, by decide⟩⟩
  · decide

/-- Claim C10 as amended: the handler publishes booking.status_changed
for a record exactly when it is an INSERT or MODIFY of a BOOKING#
METADATA row whose new booking_status is present, non-empty, and differs
from the old image's; and the record loop publishes each passing
record's event independently of failures at other records. -/
theorem c10_publish_characterization :
    (∀ r, shouldPublish r = true ↔ codePublishCondition r) ∧
    (∀ (sendFails : Nat → Bool) (rs : List StreamRecord) (i : Nat),
        processRecords sendFails rs i =
          (rs.enumFrom i).filterMap
            (fun p => if shouldPublish p.2 && !(sendFails p.1) then
                some (recordEvent p.2) else none)) := by
  constructor
  · intro r
    rcases r with ⟨en, ni, oi⟩
    cases ni with
    | none => simp [shouldPublish, codePublishCondition]
    | some img =>
        rcases img with ⟨pk, sk, bs⟩
        cases bs with
        | none => simp [shouldPublish, codePublishCondition]
        | some ns =>
            cases sk with
            | none => simp [shouldPublish, codePublishCondition]
            | some skv =>
                simp [shouldPublish, codePublishCondition, and_assoc,
                  or_comm]
  · intro sendFails rs
    induction rs with
    | nil => intro i; simp [processRecords]
    | cons r rest ih =>
        intro i
        by_cases hp : shouldPublish r = true
        · by_cases hf : sendFails i = true
          · simp [processRecords, sendRecord, hp, hf, ih]
          · simp [processRecords, sendRecord, hp, hf, ih]
        · simp [processRecords, sendRecord, hp, ih]

/-- Claim C1 at its failing input (the claim is right, the code wrong):
a Cancellation execution whose GetAffectedBookings query fails, and a
Gate-Change execution whose UpdateFlightGate fails, both terminate as
FAILED with zero Failure Reports published, because neither state
machine attaches a catch handler; the Delay workflow, by contrast,
reports the same failure exactly once. -/
theorem c1_unreported_terminal_failures :
    ((runCancellation failBookingsOracle genConst ⟨"F1"⟩ storeOk).outcome =
        Outcome.failed "DynamoDB.Error" "GetAffectedBookings failed" ∧
      (runCancellation failBookingsOracle genConst ⟨"F1"⟩
          storeOk).trace.countP isFailureReport = 0) ∧
    ((runGateChange failGateOracle genConst ⟨"F1", "B22"⟩ storeOk).outcome =
        Outcome.failed "DynamoDB.Error" "UpdateFlightGate failed" ∧
      (runGateChange failGateOracle genConst ⟨"F1", "B22"⟩
          storeOk).trace.countP isFailureReport = 0) ∧
    (runDelay failBookingsOracle genConst ⟨"F1", 25, "weather"⟩
        storeOk).trace.countP isFailureReport = 1 := by
  decide

/-- Claim C2 counterexample: flight F1 has two booking items and only the
first one's passenger row is missing; the second item's passenger exists
and opted into notifications, yet the execution publishes no
notification at all, so the other M−1 items do not complete. -/
theorem c2_claim_counterexample :
    passengerFound storeMissingP1 ⟨"F1", "B2", "P2"⟩ = true ∧
    paxP2.notification_preferences.email = true ∧
    (getAffectedBookings "F1" storeMissingP1).length = 2 ∧
    passengerFound storeMissingP1 ⟨"F1", "B1", "P1"⟩ = false ∧
    (runDelay noFailures genConst ⟨"F1", 25, "weather"⟩
        storeMissingP1).trace.filter isNotifEff = [] := by
  decide

/-! ## Idempotence of the Delay flight update -/

theorem setFlightDelayed_idem (fid : String) (delay : Int) (reason : String)
    (f : Flight) :
    setFlightDelayed fid delay reason (setFlightDelayed fid delay reason f) =
      setFlightDelayed fid delay reason f := by
  unfold setFlightDelayed
  by_cases h : (f.flight_id == fid) = true <;> simp [h]

theorem map_self_idem {α : Type} (f : α → α) (hf : ∀ x, f (f x) = f x) :
    ∀ l : List α, (l.map f).map f = l.map f := by
  intro l
  induction l with
  | nil => rfl
  | cons a t ih => simp [hf, ih]

theorem updateFlightStatusDelay_idem (fid : String) (delay : Int)
    (reason : String) (s : Store) :
    updateFlightStatusDelay fid delay reason
        (updateFlightStatusDelay fid delay reason s) =
      updateFlightStatusDelay fid delay reason s := by
  unfold updateFlightStatusDelay
  congr 1
  exact map_self_idem _ (setFlightDelayed_idem fid delay reason) s.flights

/-- In a failure-free execution of the Delay workflow the final store is
the one the UpdateFlightStatus task writes (the other Parallel branch
only reads and publishes). -/
theorem runDelay_store_noFail (gen : Gen) (d : DelayDetail) (s : Store) :
    (runDelay noFailures gen d s).store =
      updateFlightStatusDelay d.flight_id d.delay_minutes d.reason s := by
  unfold runDelay
  simp only [noFailures]
  cases h : (if (getAffectedBookings d.flight_id s).length > 0 then
      runProcessBookings gen "DELAY_NOTIFICATION"
        (getAffectedBookings d.flight_id s) s
    else ([], none)).2 with
  | none => simp [h]
  | some e => rcases e with ⟨e1, e2⟩; simp [h]

/-- Claim C6: re-running the Delay workflow on identical trigger input
leaves the Flight record (status, delay fields, GSI1 key — indeed the
whole store) as after one run; the UpdateFlightStatus write is
idempotent on the flight row. -/
theorem c6_delay_workflow_idempotent (gen : Gen) (d : DelayDetail)
    (s : Store) :
    (∀ f : Flight,
        setFlightDelayed d.flight_id d.delay_minutes d.reason
          (setFlightDelayed d.flight_id d.delay_minutes d.reason f) =
        setFlightDelayed d.flight_id d.delay_minutes d.reason f) ∧
    (runDelay noFailures gen d (runDelay noFailures gen d s).store).store =
      (runDelay noFailures gen d s).store := by
  refine ⟨setFlightDelayed_idem _ _ _, ?_⟩
  rw [runDelay_store_noFail, runDelay_store_noFail,
    updateFlightStatusDelay_idem]

/-- Claim C7: every Map state of the three workflows carries
maxConcurrency 10, and in the Map scheduling model with limit 10 every
state reachable from an initial state (all items pending) has at most 10
items mid-flight. -/
theorem c7_map_concurrency_bounded :
    (∀ cfg ∈ workflowMapConfigs, cfg.maxConcurrency = 10) ∧
    (∀ (m : Nat) (st : MapRunState),
        Relation.ReflTransGen (MapRunStep 10) ⟨m, 0, 0⟩ st →
        st.inFlight ≤ 10) := by
  constructor
  · decide
  · intro m st h
    induction h with
    | refl => exact Nat.zero_le 10
    | tail _ hstep ih =>
        cases hstep with
        | start p f d hf => exact hf
        | finish p f d => exact Nat.le_of_succ_le ih

/-- Witness for c7_map_concurrency_bounded: the shared ProcessBookings
Map configuration, and the initial scheduler state of a 25-item Map. -/
theorem c7_map_concurrency_bounded_witness :
    processBookingsMapConfig.maxConcurrency = 10 ∧
    (⟨25, 0, 0⟩ : MapRunState).inFlight ≤ 10 :=
  ⟨c7_map_concurrency_bounded.1 processBookingsMapConfig (by decide),
   c7_map_concurrency_bounded.2 25 ⟨25, 0, 0⟩ Relation.ReflTransGen.refl⟩

/-! ## Effect-shape lemmas for the ProcessBookings Map -/

theorem passengerMsgEffs_notif (gen : Gen) (mt : String) (p : Passenger) :
    ∀ e ∈ passengerMsgEffs gen mt p, isNotifEff e = true := by
  intro e he
  unfold passengerMsgEffs at he
  simp only [List.mem_cons, List.mem_append] at he
  rcases he with rfl | h | h
  · rfl
  · by_cases hc : p.notification_preferences.email = true <;>
      simp [hc] at h
    subst h; rfl
  · by_cases hc : p.notification_preferences.sms = true <;>
      simp [hc] at h
    subst h; rfl

theorem runProcessBookings_notif (gen : Gen) (mt : String) :
    ∀ (items : List BookingLookup) (s : Store),
      ∀ e ∈ (runProcessBookings gen mt items s).1, isNotifEff e = true := by
  intro items
  induction items with
  | nil => intro s e he; simp [runProcessBookings] at he
  | cons it rest ih =>
      intro s e he
      unfold runProcessBookings at he
      cases hit : runBookingItem gen mt s it with
      | error err => rw [hit] at he; simp at he
      | ok effs =>
          rw [hit] at he
          simp only [List.mem_append] at he
          rcases he with h | h
          · unfold runBookingItem at hit
            cases hp : getPassengerDetails s it.passenger_id with
            | none => rw [hp] at hit; cases hit
            | some p =>
                rw [hp] at hit
                cases hit
                exact passengerMsgEffs_notif gen mt p e h
          · exact ih s e h

/-! ## Store-shape lemmas for the three workflows -/

theorem runDelay_store (o : FailOracle) (gen : Gen) (d : DelayDetail)
    (s : Store) :
    (runDelay o gen d s).store = s ∨
    (runDelay o gen d s).store =
      updateFlightStatusDelay d.flight_id d.delay_minutes d.reason s := by
  unfold runDelay
  by_cases hg : o.failGetBookings = true
  · exact Or.inl (by simp [hg])
  · by_cases hu : o.failUpdateFlight = true
    · refine Or.inl ?_
      cases hpr : (if (getAffectedBookings d.flight_id s).length > 0 then
          runProcessBookings gen "DELAY_NOTIFICATION"
            (getAffectedBookings d.flight_id s) s
        else ([], none)).2 with
      | none => simp [hg, hu, hpr]
      | some er => rcases er with ⟨e1, e2⟩; simp [hg, hu, hpr]
    · refine Or.inr ?_
      cases hpr : (if (getAffectedBookings d.flight_id s).length > 0 then
          runProcessBookings gen "DELAY_NOTIFICATION"
            (getAffectedBookings d.flight_id s) s
        else ([], none)).2 with
      | none => simp [hg, hu, hpr]
      | some er => rcases er with ⟨e1, e2⟩; simp [hg, hu, hpr]

theorem runCancellation_store (o : FailOracle) (gen : Gen)
    (d : CancelDetail) (s : Store) :
    (runCancellation o gen d s).store = s ∨
    (runCancellation o gen d s).store =
      (runMarkForRebooking o (getAffectedBookings d.flight_id s) s).1 ∨
    (runCancellation o gen d s).store =
      updateFlightStatusCancelled d.flight_id
        (runMarkForRebooking o (getAffectedBookings d.flight_id s) s).1 := by
  unfold runCancellation
  by_cases hg : o.failGetBookings = true
  · exact Or.inl (by simp [hg])
  · cases hmk : (runMarkForRebooking o (getAffectedBookings d.flight_id s)
        s).2.2 with
    | some er =>
        rcases er with ⟨e1, e2⟩
        exact Or.inr (Or.inl (by simp [hg, hmk]))
    | none =>
        cases hpr : (runProcessBookings gen "CANCELLATION_NOTIFICATION"
            (getAffectedBookings d.flight_id s)
            (runMarkForRebooking o (getAffectedBookings d.flight_id s)
              s).1).2 with
        | some er =>
            rcases er with ⟨e1, e2⟩
            exact Or.inr (Or.inl (by simp [hg, hmk, hpr]))
        | none =>
            by_cases hu : o.failUpdateFlight = true
            · exact Or.inr (Or.inl (by simp [hg, hmk, hpr, hu]))
            · exact Or.inr (Or.inr (by simp [hg, hmk, hpr, hu]))

theorem runGateChange_store (o : FailOracle) (gen : Gen)
    (d : GateChangeDetail) (s : Store) :
    (runGateChange o gen d s).store = s ∨
    (runGateChange o gen d s).store =
      updateFlightGate d.flight_id d.new_gate s := by
  unfold runGateChange
  by_cases hg : o.failUpdateGate = true
  · exact Or.inl (by simp [hg])
  · refine Or.inr ?_
    by_cases hb : o.failGetBookings = true
    · simp [hg, hb]
    · cases hpr : (runProcessBookings gen "GATE_CHANGE_NOTIFICATION"
          (getAffectedBookings d.flight_id
            (updateFlightGate d.flight_id d.new_gate s))
          (updateFlightGate d.flight_id d.new_gate s)).2 with
      | none => simp [hg, hb, hpr]
      | some er => rcases er with ⟨e1, e2⟩; simp [hg, hb, hpr]

/-! ## Preservation of the status-index invariant -/

theorem synced_updateFlightStatusDelay (fid : String) (delay : Int)
    (reason : String) (s : Store) (h : statusIndexSynced s) :
    statusIndexSynced (updateFlightStatusDelay fid delay reason s) := by
  obtain ⟨hf, hb⟩ := h
  refine ⟨?_, ?_⟩
  · intro f hm
    rcases List.mem_map.mp hm with ⟨a, ha, rfl⟩
    unfold setFlightDelayed
    by_cases hc : (a.flight_id == fid) = true <;> simp [hc]
    exact hf a ha
  · intro b hm
    exact hb b hm

theorem synced_updateFlightStatusCancelled (fid : String) (s : Store)
    (h : statusIndexSynced s) :
    statusIndexSynced (updateFlightStatusCancelled fid s) := by
  obtain ⟨hf, hb⟩ := h
  refine ⟨?_, ?_⟩
  · intro f hm
    rcases List.mem_map.mp hm with ⟨a, ha, rfl⟩
    unfold setFlightCancelled
    by_cases hc : (a.flight_id == fid) = true <;> simp [hc]
    exact hf a ha
  · intro b hm
    exact hb b hm

theorem synced_updateFlightGate (fid gate : String) (s : Store)
    (h : statusIndexSynced s) :
    statusIndexSynced (updateFlightGate fid gate s) := by
  obtain ⟨hf, hb⟩ := h
  refine ⟨?_, ?_⟩
  · intro f hm
    rcases List.mem_map.mp hm with ⟨a, ha, rfl⟩
    unfold setFlightGate
    by_cases hc : (a.flight_id == fid) = true <;> simp [hc]
    · exact hf a ha
    · exact hf a ha
  · intro b hm
    exact hb b hm

theorem synced_updateBookingStatus (bid : String) (s : Store)
    (h : statusIndexSynced s) :
    statusIndexSynced (updateBookingStatus bid s) := by
  obtain ⟨hf, hb⟩ := h
  refine ⟨?_, ?_⟩
  · intro f hm
    exact hf f hm
  · intro b hm
    rcases List.mem_map.mp hm with ⟨a, ha, rfl⟩
    unfold setBookingNeedsRebooking
    by_cases hc : (a.booking_id == bid) = true <;> simp [hc]
    exact hb a ha

theorem runMark_synced (o : FailOracle) :
    ∀ (items : List BookingLookup) (s : Store), statusIndexSynced s →
      statusIndexSynced (runMarkForRebooking o items s).1 := by
  intro items
  induction items with
  | nil => intro s h; exact h
  | cons it rest ih =>
      intro s h
      unfold runMarkForRebooking
      by_cases hc : o.failUpdateBooking it.booking_id = true <;> simp [hc]
      · exact h
      · exact ih _ (synced_updateBookingStatus _ _ h)

/-- Claim C3: every store update any workflow step performs keeps a
Flight's status equal to its GSI1PK key and a Booking's booking_status
equal to its GSI2PK key (each update writes both in one atomic
UpdateExpression), so the invariant holds in every reachable store. -/
theorem c3_status_index_synced_preserved (o : FailOracle) (gen : Gen)
    (d1 : DelayDetail) (d2 : CancelDetail) (d3 : GateChangeDetail)
    (s : Store) (h : statusIndexSynced s) :
    statusIndexSynced (runDelay o gen d1 s).store ∧
    statusIndexSynced (runCancellation o gen d2 s).store ∧
    statusIndexSynced (runGateChange o gen d3 s).store := by
  refine ⟨?_, ?_, ?_⟩
  · rcases runDelay_store o gen d1 s with he | he <;> rw [he]
    · exact h
    · exact synced_updateFlightStatusDelay _ _ _ _ h
  · rcases runCancellation_store o gen d2 s with he | he | he <;> rw [he]
    · exact h
    · exact runMark_synced o _ s h
    · exact synced_updateFlightStatusCancelled _ _ (runMark_synced o _ s h)
  · rcases runGateChange_store o gen d3 s with he | he <;> rw [he]
    · exact h
    · exact synced_updateFlightGate _ _ _ h

/-- Witness for c3_status_index_synced_preserved on a concrete synced
store and the three concrete triggers. -/
theorem c3_status_index_synced_preserved_witness :
    statusIndexSynced
      (runDelay noFailures genConst ⟨"F1", 25, "weather"⟩ storeOk).store ∧
    statusIndexSynced
      (runCancellation noFailures genConst ⟨"F1"⟩ storeOk).store ∧
    statusIndexSynced
      (runGateChange noFailures genConst ⟨"F1", "B22"⟩ storeOk).store :=
  c3_status_index_synced_preserved noFailures genConst
    ⟨"F1", 25, "weather"⟩ ⟨"F1"⟩ ⟨"F1", "B22"⟩ storeOk
    (by unfold statusIndexSynced; exact ⟨by decide, by decide⟩)

/-! ## Gate-Change ordering -/

/-- Trace shape of a Gate-Change execution whose gate update succeeds:
the gate-update effect first, then only ProcessBookings effects. -/
theorem runGateChange_trace (o : FailOracle) (gen : Gen)
    (d : GateChangeDetail) (s : Store) (h : o.failUpdateGate = false) :
    ∃ effs, (runGateChange o gen d s).trace =
        Eff.updatedFlightGate d.flight_id :: effs ∧
      ∀ e ∈ effs, isNotifEff e = true := by
  have hg : ¬ (o.failUpdateGate = true) := by simp [h]
  unfold runGateChange
  by_cases hb : o.failGetBookings = true
  · exact ⟨[], by simp [hg, hb], by simp⟩
  · cases hpr : (runProcessBookings gen "GATE_CHANGE_NOTIFICATION"
        (getAffectedBookings d.flight_id
          (updateFlightGate d.flight_id d.new_gate s))
        (updateFlightGate d.flight_id d.new_gate s)).2 with
    | none =>
        refine ⟨(runProcessBookings gen "GATE_CHANGE_NOTIFICATION"
          (getAffectedBookings d.flight_id
            (updateFlightGate d.flight_id d.new_gate s))
          (updateFlightGate d.flight_id d.new_gate s)).1, ?_, ?_⟩
        · simp [hg, hb, hpr]
        · intro e he
          exact runProcessBookings_notif gen _ _ _ e he
    | some er =>
        rcases er with ⟨e1, e2⟩
        refine ⟨(runProcessBookings gen "GATE_CHANGE_NOTIFICATION"
          (getAffectedBookings d.flight_id
            (updateFlightGate d.flight_id d.new_gate s))
          (updateFlightGate d.flight_id d.new_gate s)).1, ?_, ?_⟩
        · simp [hg, hb, hpr]
        · intro e he
          exact runProcessBookings_notif gen _ _ _ e he

/-- Claim C8: in the Gate-Change workflow the flight's gate is written
first — the gate-update effect heads the trace, everything after it is a
ProcessBookings effect, and the store ProcessBookings reads already has
the new gate on the flight. -/
theorem c8_gate_updated_before_notifications (o : FailOracle) (gen : Gen)
    (d : GateChangeDetail) (s : Store) (h : o.failUpdateGate = false) :
    (runGateChange o gen d s).trace.head? =
      some (Eff.updatedFlightGate d.flight_id) ∧
    (∀ e ∈ (runGateChange o gen d s).trace.tail, isNotifEff e = true) ∧
    (∀ f ∈ (updateFlightGate d.flight_id d.new_gate s).flights,
        f.flight_id = d.flight_id → f.gate = d.new_gate) := by
  obtain ⟨effs, htr, hne⟩ := runGateChange_trace o gen d s h
  refine ⟨by rw [htr]; rfl, ?_, ?_⟩
  · rw [htr]
    intro e he
    exact hne e he
  · intro f hm hid
    rcases List.mem_map.mp hm with ⟨a, ha, rfl⟩
    by_cases hc : (a.flight_id == d.flight_id) = true
    · simp [setFlightGate, hc]
    · simp [setFlightGate, hc] at hid ⊢
      exact absurd (beq_iff_eq.mpr hid) hc

/-- Witness for c8_gate_updated_before_notifications at a concrete
gate-change trigger and store. -/
theorem c8_gate_updated_before_notifications_witness :
    (runGateChange noFailures genConst ⟨"F1", "B22"⟩ storeOk).trace.head? =
      some (Eff.updatedFlightGate "F1") ∧
    (∀ e ∈ (runGateChange noFailures genConst ⟨"F1", "B22"⟩
        storeOk).trace.tail, isNotifEff e = true) ∧
    (∀ f ∈ (updateFlightGate "F1" "B22" storeOk).flights,
        f.flight_id = "F1" → f.gate = "B22") :=
  c8_gate_updated_before_notifications noFailures genConst
    ⟨"F1", "B22"⟩ storeOk rfl

/-! ## Booking-marking lemmas for the Cancellation workflow -/

theorem updateBookingStatus_marks (bid : String) (s : Store) :
    bookingMarked bid (updateBookingStatus bid s) := by
  intro b hm hid
  rcases List.mem_map.mp hm with ⟨a, ha, rfl⟩
  unfold setBookingNeedsRebooking at hid ⊢
  by_cases hc : (a.booking_id == bid) = true <;> simp [hc] at hid ⊢
  exact absurd (beq_iff_eq.mpr hid) hc

theorem updateBookingStatus_mono (bid bid' : String) (s : Store)
    (h : bookingMarked bid s) :
    bookingMarked bid (updateBookingStatus bid' s) := by
  intro b hm hid
  rcases List.mem_map.mp hm with ⟨a, ha, rfl⟩
  unfold setBookingNeedsRebooking at hid ⊢
  by_cases hc : (a.booking_id == bid') = true <;> simp [hc] at hid ⊢
  exact h a ha hid

theorem runMark_mono (o : FailOracle) (bid : String) :
    ∀ (items : List BookingLookup) (s : Store), bookingMarked bid s →
      bookingMarked bid (runMarkForRebooking o items s).1 := by
  intro items
  induction items with
  | nil => intro s h; exact h
  | cons it rest ih =>
      intro s h
      unfold runMarkForRebooking
      by_cases hc : o.failUpdateBooking it.booking_id = true <;> simp [hc]
      · exact h
      · exact ih _ (updateBookingStatus_mono bid it.booking_id s h)

theorem runMark_marks_all (o : FailOracle) :
    ∀ (items : List BookingLookup) (s : Store),
      (runMarkForRebooking o items s).2.2 = none →
      ∀ it ∈ items,
        bookingMarked it.booking_id (runMarkForRebooking o items s).1 := by
  intro items
  induction items with
  | nil => intro s _ it hit; simp at hit
  | cons it0 rest ih =>
      intro s hnone it hit
      unfold runMarkForRebooking at hnone ⊢
      by_cases hc : o.failUpdateBooking it0.booking_id = true
      · rw [if_pos hc] at hnone
        simp at hnone
      · rw [if_neg hc] at hnone ⊢
        rcases List.mem_cons.mp hit with rfl | hmem
        · exact runMark_mono o it.booking_id rest _
            (updateBookingStatus_marks it.booking_id s)
        · exact ih _ hnone it hmem

theorem runMark_effs (o : FailOracle) :
    ∀ (items : List BookingLookup) (s : Store),
      ∀ e ∈ (runMarkForRebooking o items s).2.1,
        isBookingUpdateEff e = true := by
  intro items
  induction items with
  | nil => intro s e he; simp [runMarkForRebooking] at he
  | cons it rest ih =>
      intro s e he
      unfold runMarkForRebooking at he
      by_cases hc : o.failUpdateBooking it.booking_id = true
      · rw [if_pos hc] at he; simp at he
      · rw [if_neg hc] at he
        rcases List.mem_cons.mp he with rfl | hmem
        · rfl
        · exact ih _ e hmem

/-- Claim C4: in the Cancellation workflow the trace decomposes into
booking-status updates, then ProcessBookings effects, then the flight
update — the three steps run strictly sequentially — and whenever
MarkBookingsForRebooking completed, every affected booking is already at
NEEDS_REBOOKING in the store ProcessBookings reads. -/
theorem c4_cancellation_steps_sequential (o : FailOracle) (gen : Gen)
    (d : CancelDetail) (s : Store) :
    (∃ updates notifs fin,
      (runCancellation o gen d s).trace = updates ++ notifs ++ fin ∧
      (∀ e ∈ updates, isBookingUpdateEff e = true) ∧
      (∀ e ∈ notifs, isNotifEff e = true) ∧
      (∀ e ∈ fin, e = Eff.updatedFlightStatus d.flight_id)) ∧
    ((runMarkForRebooking o (getAffectedBookings d.flight_id s) s).2.2 =
        none →
      ∀ it ∈ getAffectedBookings d.flight_id s,
        bookingMarked it.booking_id
          (runMarkForRebooking o (getAffectedBookings d.flight_id s)
            s).1) := by
  constructor
  · unfold runCancellation
    by_cases hg : o.failGetBookings = true
    · exact ⟨[], [], [], by simp [hg], by simp, by simp, by simp⟩
    · cases hmk : (runMarkForRebooking o (getAffectedBookings d.flight_id s)
          s).2.2 with
      | some er =>
          rcases er with ⟨e1, e2⟩
          refine ⟨(runMarkForRebooking o
              (getAffectedBookings d.flight_id s) s).2.1, [], [],
            by simp [hg, hmk], ?_, by simp, by simp⟩
          exact runMark_effs o _ s
      | none =>
          cases hpr : (runProcessBookings gen "CANCELLATION_NOTIFICATION"
              (getAffectedBookings d.flight_id s)
              (runMarkForRebooking o (getAffectedBookings d.flight_id s)
                s).1).2 with
          | some er =>
              rcases er with ⟨e1, e2⟩
              refine ⟨(runMarkForRebooking o
                  (getAffectedBookings d.flight_id s) s).2.1,
                (runProcessBookings gen "CANCELLATION_NOTIFICATION"
                  (getAffectedBookings d.flight_id s)
                  (runMarkForRebooking o
                    (getAffectedBookings d.flight_id s) s).1).1, [],
                by simp [hg, hmk, hpr], ?_, ?_, by simp⟩
              · exact runMark_effs o _ s
              · exact runProcessBookings_notif gen _ _ _
          | none =>
              by_cases hu : o.failUpdateFlight = true
              · refine ⟨(runMarkForRebooking o
                    (getAffectedBookings d.flight_id s) s).2.1,
                  (runProcessBookings gen "CANCELLATION_NOTIFICATION"
                    (getAffectedBookings d.flight_id s)
                    (runMarkForRebooking o
                      (getAffectedBookings d.flight_id s) s).1).1, [],
                  by simp [hg, hmk, hpr, hu], ?_, ?_, by simp⟩
                · exact runMark_effs o _ s
                · exact runProcessBookings_notif gen _ _ _
              · refine ⟨(runMarkForRebooking o
                    (getAffectedBookings d.flight_id s) s).2.1,
                  (runProcessBookings gen "CANCELLATION_NOTIFICATION"
                    (getAffectedBookings d.flight_id s)
                    (runMarkForRebooking o
                      (getAffectedBookings d.flight_id s) s).1).1,
                  [Eff.updatedFlightStatus d.flight_id],
                  by simp [hg, hmk, hpr, hu], ?_, ?_, by simp⟩
                · exact runMark_effs o _ s
                · exact runProcessBookings_notif gen _ _ _
  · intro hnone it hit
    exact runMark_marks_all o _ s hnone it hit

/-! ## Map abort behavior on a failing item -/

theorem runProcessBookings_cons_ok (gen : Gen) (mt : String) (s : Store)
    (it : BookingLookup) (rest : List BookingLookup) (p : Passenger)
    (hp : getPassengerDetails s it.passenger_id = some p) :
    runProcessBookings gen mt (it :: rest) s =
      (passengerMsgEffs gen mt p ++ (runProcessBookings gen mt rest s).1,
       (runProcessBookings gen mt rest s).2) := by
  simp [runProcessBookings, runBookingItem, hp]

theorem runProcessBookings_cons_err (gen : Gen) (mt : String) (s : Store)
    (it : BookingLookup) (rest : List BookingLookup)
    (hp : getPassengerDetails s it.passenger_id = none) :
    runProcessBookings gen mt (it :: rest) s =
      ([], some ("States.Runtime",
        "GetPassengerDetails found no item for " ++ it.passenger_id)) := by
  simp [runProcessBookings, runBookingItem, hp]

theorem runProcessBookings_abort (gen : Gen) (mt : String) :
    ∀ (pre : List BookingLookup) (bad : BookingLookup)
      (post : List BookingLookup) (s : Store),
      (∀ it ∈ pre, passengerFound s it = true) →
      passengerFound s bad = false →
      runProcessBookings gen mt (pre ++ bad :: post) s =
        ((runProcessBookings gen mt pre s).1,
         some ("States.Runtime",
           "GetPassengerDetails found no item for " ++ bad.passenger_id)) := by
  intro pre
  induction pre with
  | nil =>
      intro bad post s _ hbad
      have hb : getPassengerDetails s bad.passenger_id = none := by
        unfold passengerFound at hbad
        cases hp : getPassengerDetails s bad.passenger_id with
        | none => rfl
        | some p => rw [hp] at hbad; simp at hbad
      rw [List.nil_append, runProcessBookings_cons_err gen mt s bad post hb]
      simp [runProcessBookings]
  | cons it pre' ih =>
      intro bad post s hpre hbad
      have hit : passengerFound s it = true :=
        hpre it (List.mem_cons_self it pre')
      cases hp : getPassengerDetails s it.passenger_id with
      | none => unfold passengerFound at hit; rw [hp] at hit; simp at hit
      | some p =>
          have hrec := ih bad post s
            (fun x hx => hpre x (List.mem_cons_of_mem it hx)) hbad
          rw [List.cons_append,
            runProcessBookings_cons_ok gen mt s it (pre' ++ bad :: post) p hp,
            hrec, runProcessBookings_cons_ok gen mt s it pre' p hp]

theorem notif_not_report (e : Eff) (h : isNotifEff e = true) :
    isFailureReport e = false := by
  cases e <;> simp [isNotifEff, isFailureReport] at h ⊢

/-- Claim C2 as amended: when one booking item's passenger row is
missing, the ProcessBookings Map aborts — items processed before the
failing one keep their effects, later items produce none — the flight
update branch still completes, and the Parallel's catch emits exactly
one Failure Report while the execution terminates without failing. -/
theorem c2_single_item_failure_aborts_map (gen : Gen) (d : DelayDetail)
    (s : Store) (pre post : List BookingLookup) (bad : BookingLookup)
    (hitems : getAffectedBookings d.flight_id s = pre ++ bad :: post)
    (hpre : ∀ it ∈ pre, passengerFound s it = true)
    (hbad : passengerFound s bad = false) :
    (runDelay noFailures gen d s).trace =
      (runProcessBookings gen "DELAY_NOTIFICATION" pre s).1 ++
        [Eff.updatedFlightStatus d.flight_id] ++
        [Eff.failureReport "DelayNotification" "States.Runtime"
          ("GetPassengerDetails found no item for " ++ bad.passenger_id)] ∧
    (runDelay noFailures gen d s).trace.countP isFailureReport = 1 ∧
    (runDelay noFailures gen d s).outcome = Outcome.succeeded := by
  have habort := runProcessBookings_abort gen "DELAY_NOTIFICATION"
    pre bad post s hpre hbad
  have hlen : (getAffectedBookings d.flight_id s).length > 0 := by
    rw [hitems]
    simp
  have hrun : runDelay noFailures gen d s =
      ⟨updateFlightStatusDelay d.flight_id d.delay_minutes d.reason s,
       (runProcessBookings gen "DELAY_NOTIFICATION" pre s).1 ++
         [Eff.updatedFlightStatus d.flight_id] ++
         [Eff.failureReport "DelayNotification" "States.Runtime"
           ("GetPassengerDetails found no item for " ++ bad.passenger_id)],
       Outcome.succeeded⟩ := by
    unfold runDelay
    rw [hitems]
    have hlen2 : (pre ++ bad :: post).length > 0 := by simp
    simp [noFailures, habort, hlen2, delayReport]
  refine ⟨by rw [hrun], ?_, by rw [hrun]⟩
  rw [hrun]
  simp only [List.countP_append]
  have hzero : (runProcessBookings gen "DELAY_NOTIFICATION" pre
      s).1.countP isFailureReport = 0 := by
    rw [List.countP_eq_zero]
    intro e he
    rw [notif_not_report e (runProcessBookings_notif gen _ _ _ e he)]
    simp
  rw [hzero]
  rfl

/-- Witness for c2_single_item_failure_aborts_map: flight F1 with three
booking items where the middle item's passenger P3 is missing. -/
theorem c2_single_item_failure_aborts_map_witness :
    (runDelay noFailures genConst ⟨"F1", 25, "weather"⟩
        storeMidFail).trace.countP isFailureReport = 1 :=
  (c2_single_item_failure_aborts_map genConst ⟨"F1", 25, "weather"⟩
    storeMidFail
    [⟨"F1", "B1", "P1"⟩] [⟨"F1", "B2", "P2"⟩] ⟨"F1", "B3", "P3"⟩
    (by decide) (by decide) (by decide)).2.1

end FlightPulse

